import Mathlib

/-!
Verification of the NATTEN1D-AV extension (`src/natten/src/natten1dav_cuda.cpp`)
against its natural-language specification.

The repository ships only the C++ dispatch interface (`natten1dav_forward`,
`natten1dav_backward`): it validates inputs, selects the fp16 or fp32 CUDA
kernel from the scalar type of the value tensor, and forwards the arguments.  The
CUDA kernels themselves (the neighborhood Indexer, the AV aggregation forward
pass and its backward pass) are declared in that file but their code is not
part of the repository snapshot; they are modelled here from the
algorithm descriptions of the specification (sections 4.1 to 4.3), as noted on
each definition.
-/

namespace Natten

/-! Tensor metadata and the C++ dispatch wrappers (from the source) -/

/-- Scalar types a torch tensor can carry, as far as the wrapper inspects
them (`at::ScalarType`): only `Half` is ever tested against. -/
inductive ScalarType where
  | Half : ScalarType
  | Float : ScalarType
  | Double : ScalarType
  deriving DecidableEq, Repr

/-- Metadata of a `torch::Tensor` argument, as far as the wrapper code reads
it: device placement, contiguity, scalar type, and the (never inspected)
shape. -/
structure ATTensor where
  is_cuda : Bool
  is_contiguous : Bool
  scalar_type : ScalarType
  sizes : List Nat
  deriving DecidableEq, Repr

/-- `CHECK_CUDA(x)`: `TORCH_CHECK(x.device().is_cuda(), #x " must be a CUDA tensor")`. -/
def CHECK_CUDA (name : String) (x : ATTensor) : Except String Unit :=
  if x.is_cuda then Except.ok () else Except.error (name ++ " must be a CUDA tensor")

/-- `CHECK_CONTIGUOUS(x)`: `TORCH_CHECK(x.is_contiguous(), #x " must be contiguous")`. -/
def CHECK_CONTIGUOUS (name : String) (x : ATTensor) : Except String Unit :=
  if x.is_contiguous then Except.ok () else Except.error (name ++ " must be contiguous")

/-- `CHECK_INPUT(x)`: `CHECK_CUDA(x); CHECK_CONTIGUOUS(x)`. -/
def CHECK_INPUT (name : String) (x : ATTensor) : Except String Unit := do
  CHECK_CUDA name x
  CHECK_CONTIGUOUS name x

/-- The forward CUDA kernel invocation the wrapper dispatches to, carrying the
arguments exactly as passed: `natten1dav_cuda_forward` (fp32 path) or
`natten1dav_cuda_forward_fp16`. -/
inductive FwdCall where
  | cuda_forward (attn value : ATTensor) (dilation : Int) : FwdCall
  | cuda_forward_fp16 (attn value : ATTensor) (dilation : Int) : FwdCall
  deriving DecidableEq, Repr

/-- The backward CUDA kernel invocation the wrapper dispatches to, carrying
the arguments exactly as passed: `natten1dav_cuda_backward` (fp32 path) or
`natten1dav_cuda_backward_fp16`. -/
inductive BwdCall where
  | cuda_backward (d_out attn value : ATTensor) (dilation : Int) : BwdCall
  | cuda_backward_fp16 (d_out attn value : ATTensor) (dilation : Int) : BwdCall
  deriving DecidableEq, Repr

/-- `natten1dav_forward` (source lines 39-49): `CHECK_INPUT(attn);
CHECK_INPUT(value);` then dispatch on `value.scalar_type() == Half`.
An `Except.error` models a thrown `TORCH_CHECK` failure; the returned
`FwdCall` records which CUDA kernel is invoked and with what arguments. -/
def natten1dav_forward (attn value : ATTensor) (dilation : Int) :
    Except String FwdCall := do
  CHECK_INPUT "attn" attn
  CHECK_INPUT "value" value
  if value.scalar_type = ScalarType.Half then
    return FwdCall.cuda_forward_fp16 attn value dilation
  return FwdCall.cuda_forward attn value dilation

/-- `natten1dav_backward` (source lines 51-63): `CHECK_INPUT(d_out);
CHECK_INPUT(attn); CHECK_INPUT(value);` then dispatch on
`value.scalar_type() == Half`. -/
def natten1dav_backward (d_out attn value : ATTensor) (dilation : Int) :
    Except String BwdCall := do
  CHECK_INPUT "d_out" d_out
  CHECK_INPUT "attn" attn
  CHECK_INPUT "value" value
  if value.scalar_type = ScalarType.Half then
    return BwdCall.cuda_backward_fp16 d_out attn value dilation
  return BwdCall.cuda_backward d_out attn value dilation

/-- Whether a forward dispatch result is the fp16 kernel. -/
def FwdCall.isFp16 : FwdCall → Bool
  | FwdCall.cuda_forward_fp16 _ _ _ => true
  | FwdCall.cuda_forward _ _ _ => false

/-- Whether a backward dispatch result is the fp16 kernel. -/
def BwdCall.isFp16 : BwdCall → Bool
  | BwdCall.cuda_backward_fp16 _ _ _ _ => true
  | BwdCall.cuda_backward _ _ _ _ => false

/-- The arguments a dispatched forward kernel call receives. -/
def FwdCall.args : FwdCall → ATTensor × ATTensor × Int
  | FwdCall.cuda_forward a v dil => (a, v, dil)
  | FwdCall.cuda_forward_fp16 a v dil => (a, v, dil)

/-- The arguments a dispatched backward kernel call receives. -/
def BwdCall.args : BwdCall → ATTensor × ATTensor × ATTensor × Int
  | BwdCall.cuda_backward g a v dil => (g, a, v, dil)
  | BwdCall.cuda_backward_fp16 g a v dil => (g, a, v, dil)

/-- A CUDA, contiguous float attention tensor for concrete wrapper runs. -/
def tAttn : ATTensor := ATTensor.mk true true ScalarType.Float [1, 1, 5, 3]

/-- A CUDA, contiguous half-precision value tensor whose sizes deliberately
mismatch the batch, head and length extents of `tAttn`. -/
def tValue : ATTensor := ATTensor.mk true true ScalarType.Half [2, 3, 7, 4]

/-- A CUDA, contiguous double-precision gradient tensor with yet another
shape. -/
def tGrad : ATTensor := ATTensor.mk true true ScalarType.Double [9]

/-- A non-CUDA tensor, for exercising the validation failure path. -/
def tCpu : ATTensor := ATTensor.mk false true ScalarType.Float [1, 1, 5, 3]

/-! The Neighborhood Indexer (spec section 4.1)

The CUDA kernel sources declared by the interface file are not in the
repository snapshot, so the Indexer and the two aggregation passes are
modelled from the specification. -/

/-- Modelled from the spec: the window-start rule of the Neighborhood Indexer
(section 4.1), missing from the repository together with the CUDA kernels.
Within the residue sub-sequence of length `Lr`, a query at sub-sequence index
`i` gets the window start `0` if `i < K/2`, `Lr - K` if `i ≥ Lr - ⌈K/2⌉`, and
`i - K/2` otherwise (floor division throughout). -/
def windowStart (i Lr K : Nat) : Nat :=
  if i < K / 2 then 0
  else if Lr - (K + 1) / 2 ≤ i then Lr - K
  else i - K / 2

/-- Modelled from the spec: the Indexer, giving the `k`-th absolute neighbor position of
query `l` in a sequence of length `L` with kernel size `K` and dilation `δ`
(section 4.1), missing from the repository together with the CUDA kernels.
With `r = l mod δ`, `Lr = ⌈(L-r)/δ⌉` and `i = (l-r)/δ`, the sub-sequence index
`j = windowStart + k` is mapped back to the absolute position `r + j·δ`. -/
def neighbor (l L K δ k : Nat) : Nat :=
  let r := l % δ
  let Lr := (L - r + δ - 1) / δ
  let i := (l - r) / δ
  r + (windowStart i Lr K + k) * δ

/-- Modelled from the spec: the ordered list of the `K` neighbor positions of
query `l` (section 4.1), missing from the repository together with the CUDA
kernels. -/
def indexer (l L K δ : Nat) : List Nat :=
  (List.range K).map (neighbor l L K δ)

/-! Tensors and the AV aggregation passes (spec sections 3, 4.2, 4.3) -/

/-- A rank-4 tensor of exact rationals: extents `B, H, L, D` and the element
map. For an attention tensor the last extent plays the role of `K`. -/
@[ext]
structure Tensor4 where
  B : Nat
  H : Nat
  L : Nat
  D : Nat
  data : Nat → Nat → Nat → Nat → ℚ

/-- Modelled from the spec: the AV Aggregator forward pass
`aggregate_forward(A, V, δ) → O` (section 4.2), missing from the repository
together with the CUDA kernels.  `K` is inferred from the last extent of `attn`,
the output takes the shape of `value`, and every element is
`O[b,h,l,d] = Σ_{k<K} A[b,h,l,k] · V[b,h, neighbor(l,k), d]`. -/
def aggregate_forward (attn value : Tensor4) (δ : Nat) : Tensor4 :=
  Tensor4.mk value.B value.H value.L value.D
    (fun b h l d =>
      ∑ k ∈ Finset.range attn.D,
        attn.data b h l k * value.data b h (neighbor l value.L attn.D δ k) d)

/-- Modelled from the spec: the attention-gradient half of
`aggregate_backward` (section 4.3), missing from the repository together with
the CUDA kernels: `dA[b,h,l,k] = Σ_d dO[b,h,l,d] · V[b,h, neighbor(l,k), d]`,
with `dA` taking the shape of `attn`. -/
def aggregate_backward_dA (d_out attn value : Tensor4) (δ : Nat) : Tensor4 :=
  Tensor4.mk attn.B attn.H attn.L attn.D
    (fun b h l k =>
      ∑ d ∈ Finset.range value.D,
        d_out.data b h l d * value.data b h (neighbor l value.L attn.D δ k) d)

/-- Modelled from the spec: the value-gradient half of `aggregate_backward`
(section 4.3), missing from the repository together with the CUDA kernels:
the scatter-add
`dV[b,h,p,d] = Σ_{(l,k): neighbor(l,k)=p} A[b,h,l,k] · dO[b,h,l,d]`, the sum
running over all query positions `l < L` and slots `k < K`, with `dV` taking
the shape of `value`. -/
def aggregate_backward_dV (d_out attn value : Tensor4) (δ : Nat) : Tensor4 :=
  Tensor4.mk value.B value.H value.L value.D
    (fun b h p d =>
      ∑ l ∈ Finset.range value.L, ∑ k ∈ Finset.range attn.D,
        if neighbor l value.L attn.D δ k = p then
          attn.data b h l k * d_out.data b h l d
        else 0)

/-- Modelled from the spec: `aggregate_backward(dO, A, V, δ) → (dA, dV)`
(section 4.3), missing from the repository together with the CUDA kernels. -/
def aggregate_backward (d_out attn value : Tensor4) (δ : Nat) :
    Tensor4 × Tensor4 :=
  (aggregate_backward_dA d_out attn value δ,
   aggregate_backward_dV d_out attn value δ)

/-- Restriction of a tensor to the residue class `r` modulo `δ` along the `L`
axis: position `i` of the restriction is position `r + i·δ` of the original,
and the restricted length is `⌈(L-r)/δ⌉`. -/
def residueRestrict (T : Tensor4) (δ r : Nat) : Tensor4 :=
  Tensor4.mk T.B T.H ((T.L - r + δ - 1) / δ) T.D
    (fun b h i d => T.data b h (r + i * δ) d)

/-- Pointwise scalar multiple of a tensor. -/
def Tensor4.smul (c : ℚ) (T : Tensor4) : Tensor4 :=
  Tensor4.mk T.B T.H T.L T.D (fun b h l d => c * T.data b h l d)

/-- Pointwise sum of two tensors (extents taken from the first). -/
def Tensor4.add (S T : Tensor4) : Tensor4 :=
  Tensor4.mk S.B S.H S.L S.D (fun b h l d => S.data b h l d + T.data b h l d)

/-- Value tensor of the concrete spec scenario: `B=H=D=1`, `L=5`,
`V = [1,2,3,4,5]`. -/
def Vconc : Tensor4 :=
  Tensor4.mk 1 1 5 1 (fun _ _ l _ => ([1, 2, 3, 4, 5] : List ℚ).getD l 0)

/-- Attention tensor of the concrete spec scenario: `K=3`, all weights 1
(unnormalized uniform). -/
def Aconc : Tensor4 := Tensor4.mk 1 1 5 3 (fun _ _ _ _ => 1)

/-! Helper lemmas on the Indexer -/

lemma indexer_getD (l L K δ k : Nat) (hk : k < K) :
    (indexer l L K δ).getD k 0 = neighbor l L K δ k := by
  unfold indexer
  rw [List.getD_eq_getElem?_getD]
  simp [List.getElem?_map, List.getElem?_range, hk]

lemma windowStart_add_le (i Lr K : Nat) (hK : K ≤ Lr) :
    windowStart i Lr K + K ≤ Lr := by
  unfold windowStart
  split
  · omega
  · split
    · omega
    · omega

lemma windowStart_centered (i Lr K : Nat) (h1 : K / 2 ≤ i)
    (h2 : i + (K + 1) / 2 ≤ Lr) : windowStart i Lr K = i - K / 2 := by
  unfold windowStart
  split
  · omega
  · split
    · omega
    · rfl

lemma sub_mod_div (l δ : Nat) : (l - l % δ) / δ = l / δ := by
  rcases Nat.eq_zero_or_pos δ with hδ | hδ
  · simp [hδ]
  · have h : l - l % δ = δ * (l / δ) := by
      have := Nat.mod_add_div l δ
      omega
    rw [h, Nat.mul_div_cancel_left _ hδ]

lemma neighbor_lt (l L K δ k : Nat) (hδ : 0 < δ) (hl : l < L)
    (hK : K ≤ (L - l % δ + δ - 1) / δ) (hk : k < K) :
    neighbor l L K δ k < L := by
  show l % δ + (windowStart ((l - l % δ) / δ) ((L - l % δ + δ - 1) / δ) K + k) * δ < L
  have hrl : l % δ < L := lt_of_le_of_lt (Nat.mod_le l δ) hl
  have h1 : windowStart ((l - l % δ) / δ) ((L - l % δ + δ - 1) / δ) K + k + 1
      ≤ (L - l % δ + δ - 1) / δ := by
    have := windowStart_add_le ((l - l % δ) / δ) ((L - l % δ + δ - 1) / δ) K hK
    omega
  have h2 : (windowStart ((l - l % δ) / δ) ((L - l % δ + δ - 1) / δ) K + k + 1) * δ
      ≤ ((L - l % δ + δ - 1) / δ) * δ := Nat.mul_le_mul_right δ h1
  have h3 : ((L - l % δ + δ - 1) / δ) * δ ≤ L - l % δ + δ - 1 :=
    Nat.div_mul_le_self _ _
  have h4 : (windowStart ((l - l % δ) / δ) ((L - l % δ + δ - 1) / δ) K + k) * δ + δ
      ≤ L - l % δ + δ - 1 := by
    calc (windowStart ((l - l % δ) / δ) ((L - l % δ + δ - 1) / δ) K + k) * δ + δ
        = (windowStart ((l - l % δ) / δ) ((L - l % δ + δ - 1) / δ) K + k + 1) * δ := by
          ring
      _ ≤ ((L - l % δ + δ - 1) / δ) * δ := h2
      _ ≤ L - l % δ + δ - 1 := h3
  omega

lemma neighbor_mod (l L K δ k : Nat) : neighbor l L K δ k % δ = l % δ := by
  show (l % δ + (windowStart ((l - l % δ) / δ) ((L - l % δ + δ - 1) / δ) K + k) * δ) % δ
      = l % δ
  rw [Nat.add_mul_mod_self_right]
  exact Nat.mod_mod_of_dvd l (dvd_refl δ)

lemma neighbor_inj (l L K δ k1 k2 : Nat) (hδ : 0 < δ)
    (h : neighbor l L K δ k1 = neighbor l L K δ k2) : k1 = k2 := by
  unfold neighbor at h
  have h2 := Nat.add_left_cancel h
  have h3 := Nat.eq_of_mul_eq_mul_right hδ h2
  omega

lemma neighbor_one (i Lr K k : Nat) :
    neighbor i Lr K 1 k = windowStart i Lr K + k := by
  unfold neighbor
  simp [Nat.mod_one, Nat.div_one]

lemma neighbor_decomp (l L K δ k : Nat) :
    neighbor l L K δ k
      = l % δ + (neighbor (l / δ) ((L - l % δ + δ - 1) / δ) K 1 k) * δ := by
  rw [neighbor_one]
  show l % δ + (windowStart ((l - l % δ) / δ) ((L - l % δ + δ - 1) / δ) K + k) * δ
      = l % δ + (windowStart (l / δ) ((L - l % δ + δ - 1) / δ) K + k) * δ
  rw [sub_mod_div]

lemma neighbor_eq (l L K δ k : Nat) :
    neighbor l L K δ k
      = l % δ + (windowStart (l / δ) ((L - l % δ + δ - 1) / δ) K + k) * δ := by
  rw [neighbor_decomp, neighbor_one]

lemma windowStart_interior_mem (l L δ : Nat) {K : Nat}
    (h1 : K / 2 ≤ l / δ)
    (h2 : l / δ + (K + 1) / 2 ≤ (L - l % δ + δ - 1) / δ) :
    neighbor l L K δ (K / 2) = l := by
  rw [neighbor_eq, windowStart_centered _ _ _ h1 h2]
  have h3 : l / δ - K / 2 + K / 2 = l / δ := by omega
  rw [h3]
  exact Nat.mod_add_div' l δ

end Natten

namespace Natten

/-! Claim theorems about the Indexer -/

/-- Claim C3: for every `(l, L, K, δ)` with `δ ≥ 1` and `L_r ≥ K`, the
Indexer computes `r = l mod δ`, `L_r = ⌈(L-r)/δ⌉`, `i = (l-r)/δ`, picks the
window start as `0` when `i < K/2`, as `L_r - K` when `i ≥ L_r - ⌈K/2⌉`, and
as `i - K/2` otherwise, and returns, in order, the `K` absolute positions
`r + j·δ` for `j ∈ [start, start+K)`. -/
theorem C3_indexer_window_rule (l L K δ k : Nat) (hδ : 1 ≤ δ)
    (hLr : K ≤ (L - l % δ + δ - 1) / δ) (hk : k < K) :
    (indexer l L K δ).length = K ∧
    (indexer l L K δ).getD k 0 =
      l % δ +
        ((if (l - l % δ) / δ < K / 2 then 0
          else if (L - l % δ + δ - 1) / δ - (K + 1) / 2 ≤ (l - l % δ) / δ then
            (L - l % δ + δ - 1) / δ - K
          else (l - l % δ) / δ - K / 2) + k) * δ := by
  constructor
  · simp [indexer]
  · rw [indexer_getD l L K δ k hk]
    rfl

/-- Witness for C3 at `l=2, L=5, K=3, δ=1, k=1`. -/
theorem C3_indexer_window_rule_witness :
    (1 ≤ 1 ∧ 3 ≤ (5 - 2 % 1 + 1 - 1) / 1 ∧ 1 < 3) ∧
    ((indexer 2 5 3 1).length = 3 ∧
      (indexer 2 5 3 1).getD 1 0 =
        2 % 1 +
          ((if (2 - 2 % 1) / 1 < 3 / 2 then 0
            else if (5 - 2 % 1 + 1 - 1) / 1 - (3 + 1) / 2 ≤ (2 - 2 % 1) / 1 then
              (5 - 2 % 1 + 1 - 1) / 1 - 3
            else (2 - 2 % 1) / 1 - 3 / 2) + 1) * 1) :=
  ⟨by decide, C3_indexer_window_rule 2 5 3 1 1 (by decide) (by decide) (by decide)⟩

/-- Claim C4: for every query `l < L` with `δ ≥ 1` and `L_r ≥ K` for the
residue class of `l`, the `K` neighbor positions are pairwise distinct, lie in
`[0,L)`, share the residue class `l mod δ`, form a contiguous block in
sub-sequence index space (the sub-sequence index of the `k`-th neighbor is
`windowStart + k`), and for interior positions (where the unshifted centered
window fits) the query `l` is among its own `K` neighbors. -/
theorem C4_window_validity (l L K δ k : Nat) (hδ : 0 < δ) (hl : l < L)
    (hK : K ≤ (L - l % δ + δ - 1) / δ) (hk : k < K) :
    (indexer l L K δ).Nodup ∧
    neighbor l L K δ k < L ∧
    neighbor l L K δ k % δ = l % δ ∧
    (neighbor l L K δ k - l % δ) / δ
      = windowStart (l / δ) ((L - l % δ + δ - 1) / δ) K + k ∧
    (0 < K → K / 2 ≤ l / δ →
      l / δ + (K + 1) / 2 ≤ (L - l % δ + δ - 1) / δ →
      l ∈ indexer l L K δ) := by
  refine ⟨?_, neighbor_lt l L K δ k hδ hl hK hk, neighbor_mod l L K δ k, ?_, ?_⟩
  · apply List.Nodup.map_on
    · intro x _ y _ hxy
      exact neighbor_inj l L K δ x y hδ hxy
    · exact List.nodup_range K
  · rw [neighbor_eq, Nat.add_sub_cancel_left, Nat.mul_div_cancel _ hδ]
  · intro hKpos h1 h2
    unfold indexer
    rw [List.mem_map]
    refine ⟨K / 2, List.mem_range.mpr (Nat.div_lt_self hKpos (by omega)), ?_⟩
    exact windowStart_interior_mem l L δ h1 h2

/-- Claim C2: for `B=1,H=1,L=5,D=1,K=3,δ=1`, `V=[1,2,3,4,5]`,
`A[l,:]=[1,1,1]`, the Indexer produces the windows `l=0→{0,1,2}`,
`l=1→{0,1,2}`, `l=2→{1,2,3}`, `l=3→{2,3,4}`, `l=4→{2,3,4}`, and
`aggregate_forward` returns exactly `O = [6, 6, 9, 12, 12]`. -/
theorem C2_concrete_scenario :
    indexer 0 5 3 1 = [0, 1, 2] ∧
    indexer 1 5 3 1 = [0, 1, 2] ∧
    indexer 2 5 3 1 = [1, 2, 3] ∧
    indexer 3 5 3 1 = [2, 3, 4] ∧
    indexer 4 5 3 1 = [2, 3, 4] ∧
    (aggregate_forward Aconc Vconc 1).data 0 0 0 0 = 6 ∧
    (aggregate_forward Aconc Vconc 1).data 0 0 1 0 = 6 ∧
    (aggregate_forward Aconc Vconc 1).data 0 0 2 0 = 9 ∧
    (aggregate_forward Aconc Vconc 1).data 0 0 3 0 = 12 ∧
    (aggregate_forward Aconc Vconc 1).data 0 0 4 0 = 12 := by
  refine ⟨by decide, by decide, by decide, by decide, by decide, ?_, ?_, ?_, ?_, ?_⟩
  all_goals
    norm_num [aggregate_forward, Aconc, Vconc, neighbor, windowStart,
      Finset.sum_range_succ]

/-- Claim C1: for every valid input (`δ ≥ 1`, `L_r ≥ K` for every residue
class), `aggregate_forward` returns a tensor of the shape of `value` whose every
element is `O[b,h,l,d] = Σ_{k<K} A[b,h,l,k] · V[b,h, neighbor(l,k), d]`,
where `neighbor(l,k)` is the `k`-th entry of the section-4.1 Indexer
window for query `l`. -/
theorem C1_forward_formula (attn value : Tensor4) (δ : Nat) (b h l d : Nat)
    (hδ : 1 ≤ δ)
    (hvalid : ∀ r, r < δ → attn.D ≤ (value.L - r + δ - 1) / δ) :
    ((aggregate_forward attn value δ).B = value.B ∧
     (aggregate_forward attn value δ).H = value.H ∧
     (aggregate_forward attn value δ).L = value.L ∧
     (aggregate_forward attn value δ).D = value.D) ∧
    (aggregate_forward attn value δ).data b h l d =
      ∑ k ∈ Finset.range attn.D,
        attn.data b h l k *
          value.data b h ((indexer l value.L attn.D δ).getD k 0) d := by
  refine ⟨⟨rfl, rfl, rfl, rfl⟩, ?_⟩
  show (∑ k ∈ Finset.range attn.D,
      attn.data b h l k * value.data b h (neighbor l value.L attn.D δ k) d) = _
  apply Finset.sum_congr rfl
  intro k hk
  rw [indexer_getD l value.L attn.D δ k (Finset.mem_range.mp hk)]

/-- Witness for C1 at the concrete scenario tensors with `δ=1`, element
`(0,0,2,0)`. -/
theorem C1_forward_formula_witness :
    (1 ≤ 1 ∧ ∀ r, r < 1 → Aconc.D ≤ (Vconc.L - r + 1 - 1) / 1) ∧
    (((aggregate_forward Aconc Vconc 1).B = Vconc.B ∧
      (aggregate_forward Aconc Vconc 1).H = Vconc.H ∧
      (aggregate_forward Aconc Vconc 1).L = Vconc.L ∧
      (aggregate_forward Aconc Vconc 1).D = Vconc.D) ∧
     (aggregate_forward Aconc Vconc 1).data 0 0 2 0 =
       ∑ k ∈ Finset.range Aconc.D,
         Aconc.data 0 0 2 k *
           Vconc.data 0 0 ((indexer 2 Vconc.L Aconc.D 1).getD k 0) 0) :=
  ⟨⟨le_refl 1, by decide⟩,
   C1_forward_formula Aconc Vconc 1 0 0 2 0 (le_refl 1) (by decide)⟩

/-- Claim C5: for every valid input, `aggregate_backward` returns the pair
`(dA, dV)` with `dA` of the shape of `attn` and
`dA[b,h,l,k] = Σ_d dO[b,h,l,d] · V[b,h, neighbor(l,k), d]`, and `dV` of
the shape of `value` with
`dV[b,h,p,d] = Σ_{(l,k): neighbor(l,k)=p} A[b,h,l,k] · dO[b,h,l,d]`, the
transpose of the forward gather. -/
theorem C5_backward_formula (d_out attn value : Tensor4) (δ : Nat)
    (b h l k p d : Nat) (hδ : 1 ≤ δ)
    (hvalid : ∀ r, r < δ → attn.D ≤ (value.L - r + δ - 1) / δ)
    (hk : k < attn.D) :
    ((aggregate_backward d_out attn value δ).1.B = attn.B ∧
     (aggregate_backward d_out attn value δ).1.H = attn.H ∧
     (aggregate_backward d_out attn value δ).1.L = attn.L ∧
     (aggregate_backward d_out attn value δ).1.D = attn.D ∧
     (aggregate_backward d_out attn value δ).2.B = value.B ∧
     (aggregate_backward d_out attn value δ).2.H = value.H ∧
     (aggregate_backward d_out attn value δ).2.L = value.L ∧
     (aggregate_backward d_out attn value δ).2.D = value.D) ∧
    (aggregate_backward d_out attn value δ).1.data b h l k =
      (∑ d2 ∈ Finset.range value.D,
        d_out.data b h l d2 *
          value.data b h ((indexer l value.L attn.D δ).getD k 0) d2) ∧
    (aggregate_backward d_out attn value δ).2.data b h p d =
      ∑ l2 ∈ Finset.range value.L, ∑ k2 ∈ Finset.range attn.D,
        if (indexer l2 value.L attn.D δ).getD k2 0 = p then
          attn.data b h l2 k2 * d_out.data b h l2 d
        else 0 := by
  refine ⟨⟨rfl, rfl, rfl, rfl, rfl, rfl, rfl, rfl⟩, ?_, ?_⟩
  · show (∑ d2 ∈ Finset.range value.D,
        d_out.data b h l d2 *
          value.data b h (neighbor l value.L attn.D δ k) d2) = _
    rw [indexer_getD l value.L attn.D δ k hk]
  · show (∑ l2 ∈ Finset.range value.L, ∑ k2 ∈ Finset.range attn.D,
        if neighbor l2 value.L attn.D δ k2 = p then
          attn.data b h l2 k2 * d_out.data b h l2 d
        else 0) = _
    apply Finset.sum_congr rfl
    intro l2 _
    apply Finset.sum_congr rfl
    intro k2 hk2
    rw [indexer_getD l2 value.L attn.D δ k2 (Finset.mem_range.mp hk2)]

/-- Witness for C5 at the concrete scenario tensors (`d_out = Vconc`),
`δ=1`, `l=2`, `k=1`, `p=3`, `b=h=d=0`. -/
theorem C5_backward_formula_witness :
    (1 ≤ 1 ∧ (∀ r, r < 1 → Aconc.D ≤ (Vconc.L - r + 1 - 1) / 1) ∧ 1 < Aconc.D) ∧
    (((aggregate_backward Vconc Aconc Vconc 1).1.B = Aconc.B ∧
      (aggregate_backward Vconc Aconc Vconc 1).1.H = Aconc.H ∧
      (aggregate_backward Vconc Aconc Vconc 1).1.L = Aconc.L ∧
      (aggregate_backward Vconc Aconc Vconc 1).1.D = Aconc.D ∧
      (aggregate_backward Vconc Aconc Vconc 1).2.B = Vconc.B ∧
      (aggregate_backward Vconc Aconc Vconc 1).2.H = Vconc.H ∧
      (aggregate_backward Vconc Aconc Vconc 1).2.L = Vconc.L ∧
      (aggregate_backward Vconc Aconc Vconc 1).2.D = Vconc.D) ∧
     (aggregate_backward Vconc Aconc Vconc 1).1.data 0 0 2 1 =
       (∑ d2 ∈ Finset.range Vconc.D,
         Vconc.data 0 0 2 d2 *
           Vconc.data 0 0 ((indexer 2 Vconc.L Aconc.D 1).getD 1 0) d2) ∧
     (aggregate_backward Vconc Aconc Vconc 1).2.data 0 0 3 0 =
       ∑ l2 ∈ Finset.range Vconc.L, ∑ k2 ∈ Finset.range Aconc.D,
         if (indexer l2 Vconc.L Aconc.D 1).getD k2 0 = 3 then
           Aconc.data 0 0 l2 k2 * Vconc.data 0 0 l2 0
         else 0) :=
  ⟨⟨le_refl 1, by decide, by decide⟩,
   C5_backward_formula Vconc Aconc Vconc 1 0 0 2 1 3 0 (le_refl 1)
     (by decide) (by decide)⟩

/-- Claim C6: the forward output at any position `l` depends only on the
attention row of `l` and the values at positions of the residue class of `l`, and
equals ordinary non-dilated (`δ=1`) neighborhood attention applied to the
subsequence of positions sharing that residue: no cross-residue leakage. -/
theorem C6_residue_decomposition (attn value value2 : Tensor4) (δ : Nat)
    (b h l d : Nat) (hδ : 0 < δ) (hL : value2.L = value.L)
    (hagree : ∀ b2 h2 p d2, p % δ = l % δ →
      value2.data b2 h2 p d2 = value.data b2 h2 p d2) :
    (aggregate_forward attn value δ).data b h l d
      = (aggregate_forward (residueRestrict attn δ (l % δ))
          (residueRestrict value δ (l % δ)) 1).data b h (l / δ) d ∧
    (aggregate_forward attn value δ).data b h l d
      = (aggregate_forward attn value2 δ).data b h l d := by
  constructor
  · show (∑ kk ∈ Finset.range attn.D,
        attn.data b h l kk *
          value.data b h (neighbor l value.L attn.D δ kk) d)
      = ∑ kk ∈ Finset.range attn.D,
          attn.data b h (l % δ + l / δ * δ) kk *
            value.data b h
              (l % δ +
                (neighbor (l / δ) ((value.L - l % δ + δ - 1) / δ) attn.D 1 kk) * δ) d
    apply Finset.sum_congr rfl
    intro kk _
    rw [Nat.mod_add_div' l δ, neighbor_decomp]
  · show (∑ kk ∈ Finset.range attn.D,
        attn.data b h l kk *
          value.data b h (neighbor l value.L attn.D δ kk) d)
      = ∑ kk ∈ Finset.range attn.D,
          attn.data b h l kk *
            value2.data b h (neighbor l value2.L attn.D δ kk) d
    rw [hL]
    apply Finset.sum_congr rfl
    intro kk _
    rw [hagree b h (neighbor l value.L attn.D δ kk) d
      (neighbor_mod l value.L attn.D δ kk)]

/-- Witness for C6 at the concrete scenario tensors with dilation `δ=2`,
query `l=3`, `value2 = Vconc` itself. -/
theorem C6_residue_decomposition_witness :
    (0 < 2 ∧ Vconc.L = Vconc.L) ∧
    ((aggregate_forward Aconc Vconc 2).data 0 0 3 0
        = (aggregate_forward (residueRestrict Aconc 2 (3 % 2))
            (residueRestrict Vconc 2 (3 % 2)) 1).data 0 0 (3 / 2) 0 ∧
     (aggregate_forward Aconc Vconc 2).data 0 0 3 0
        = (aggregate_forward Aconc Vconc 2).data 0 0 3 0) :=
  ⟨⟨by decide, rfl⟩,
   C6_residue_decomposition Aconc Vconc Vconc 2 0 0 3 0 (by decide) rfl
     (fun _ _ _ _ _ => rfl)⟩

/-- Claim C7: in exact arithmetic, `aggregate_forward(A, c·V, δ) =
c · aggregate_forward(A, V, δ)`, and forward is linear in `A` with zero
offset for fixed `V`: additive in `A` and homogeneous under scalar
multiplication of `A`. -/
theorem C7_linearity (attn attn2 value : Tensor4) (δ : Nat) (c : ℚ)
    (hD : attn2.D = attn.D) :
    aggregate_forward attn (Tensor4.smul c value) δ
      = Tensor4.smul c (aggregate_forward attn value δ) ∧
    aggregate_forward (Tensor4.add attn attn2) value δ
      = Tensor4.add (aggregate_forward attn value δ)
          (aggregate_forward attn2 value δ) ∧
    aggregate_forward (Tensor4.smul c attn) value δ
      = Tensor4.smul c (aggregate_forward attn value δ) := by
  refine ⟨?_, ?_, ?_⟩
  · refine Tensor4.ext rfl rfl rfl rfl ?_
    funext b h l d
    show (∑ k ∈ Finset.range attn.D,
        attn.data b h l k *
          (c * value.data b h (neighbor l value.L attn.D δ k) d))
      = c * ∑ k ∈ Finset.range attn.D,
          attn.data b h l k * value.data b h (neighbor l value.L attn.D δ k) d
    rw [Finset.mul_sum]
    apply Finset.sum_congr rfl
    intro k _
    ring
  · refine Tensor4.ext rfl rfl rfl rfl ?_
    funext b h l d
    show (∑ k ∈ Finset.range attn.D,
        (attn.data b h l k + attn2.data b h l k) *
          value.data b h (neighbor l value.L attn.D δ k) d)
      = (∑ k ∈ Finset.range attn.D,
          attn.data b h l k * value.data b h (neighbor l value.L attn.D δ k) d)
        + ∑ k ∈ Finset.range attn2.D,
            attn2.data b h l k * value.data b h (neighbor l value.L attn2.D δ k) d
    rw [hD, ← Finset.sum_add_distrib]
    apply Finset.sum_congr rfl
    intro k _
    ring
  · refine Tensor4.ext rfl rfl rfl rfl ?_
    funext b h l d
    show (∑ k ∈ Finset.range attn.D,
        (c * attn.data b h l k) *
          value.data b h (neighbor l value.L attn.D δ k) d)
      = c * ∑ k ∈ Finset.range attn.D,
          attn.data b h l k * value.data b h (neighbor l value.L attn.D δ k) d
    rw [Finset.mul_sum]
    apply Finset.sum_congr rfl
    intro k _
    ring

/-- Witness for C7 at the concrete scenario tensors with `c = 3`, `δ = 1`. -/
theorem C7_linearity_witness :
    Aconc.D = Aconc.D ∧
    (aggregate_forward Aconc (Tensor4.smul 3 Vconc) 1
        = Tensor4.smul 3 (aggregate_forward Aconc Vconc 1) ∧
     aggregate_forward (Tensor4.add Aconc Aconc) Vconc 1
        = Tensor4.add (aggregate_forward Aconc Vconc 1)
            (aggregate_forward Aconc Vconc 1) ∧
     aggregate_forward (Tensor4.smul 3 Aconc) Vconc 1
        = Tensor4.smul 3 (aggregate_forward Aconc Vconc 1)) :=
  ⟨rfl, C7_linearity Aconc Aconc Vconc 1 3 rfl⟩

/-! Wrapper behavior (claims C8, C9, C10) -/

lemma natten1dav_forward_cases (attn value : ATTensor) (dilation : Int) :
    natten1dav_forward attn value dilation =
      if attn.is_cuda then
        if attn.is_contiguous then
          if value.is_cuda then
            if value.is_contiguous then
              Except.ok
                (if value.scalar_type = ScalarType.Half then
                  FwdCall.cuda_forward_fp16 attn value dilation
                else FwdCall.cuda_forward attn value dilation)
            else Except.error "value must be contiguous"
          else Except.error "value must be a CUDA tensor"
        else Except.error "attn must be contiguous"
      else Except.error "attn must be a CUDA tensor" := by
  obtain ⟨ac, act, ast, asz⟩ := attn
  obtain ⟨vc, vct, vst, vsz⟩ := value
  cases ac <;> cases act <;> cases vc <;> cases vct <;>
    simp [natten1dav_forward, CHECK_INPUT, CHECK_CUDA, CHECK_CONTIGUOUS,
      Bind.bind, Except.bind, pure, Except.pure, apply_ite]

lemma natten1dav_backward_cases (d_out attn value : ATTensor) (dilation : Int) :
    natten1dav_backward d_out attn value dilation =
      if d_out.is_cuda then
        if d_out.is_contiguous then
          if attn.is_cuda then
            if attn.is_contiguous then
              if value.is_cuda then
                if value.is_contiguous then
                  Except.ok
                    (if value.scalar_type = ScalarType.Half then
                      BwdCall.cuda_backward_fp16 d_out attn value dilation
                    else BwdCall.cuda_backward d_out attn value dilation)
                else Except.error "value must be contiguous"
              else Except.error "value must be a CUDA tensor"
            else Except.error "attn must be contiguous"
          else Except.error "attn must be a CUDA tensor"
        else Except.error "d_out must be contiguous"
      else Except.error "d_out must be a CUDA tensor" := by
  obtain ⟨gc, gct, gst, gsz⟩ := d_out
  obtain ⟨ac, act, ast, asz⟩ := attn
  obtain ⟨vc, vct, vst, vsz⟩ := value
  cases gc <;> cases gct <;> cases ac <;> cases act <;> cases vc <;> cases vct <;>
    simp [natten1dav_backward, CHECK_INPUT, CHECK_CUDA, CHECK_CONTIGUOUS,
      Bind.bind, Except.bind, pure, Except.pure, apply_ite]

/-- Claim C8: each wrapper fails with a caller-visible error exactly when
some input tensor is not CUDA or not contiguous, the checks run in argument
order before any dispatch, and an error result carries no kernel call, so on
error the core kernel is never invoked. -/
theorem C8_validation_layer (attn value d_out : ATTensor) (dilation : Int) :
    ((natten1dav_forward attn value dilation).isOk = true ↔
      (attn.is_cuda = true ∧ attn.is_contiguous = true ∧
       value.is_cuda = true ∧ value.is_contiguous = true)) ∧
    ((natten1dav_backward d_out attn value dilation).isOk = true ↔
      (d_out.is_cuda = true ∧ d_out.is_contiguous = true ∧
       attn.is_cuda = true ∧ attn.is_contiguous = true ∧
       value.is_cuda = true ∧ value.is_contiguous = true)) := by
  rw [natten1dav_forward_cases, natten1dav_backward_cases]
  obtain ⟨ac, act, ast, asz⟩ := attn
  obtain ⟨vc, vct, vst, vsz⟩ := value
  obtain ⟨gc, gct, gst, gsz⟩ := d_out
  cases gc <;> cases gct <;> cases ac <;> cases act <;> cases vc <;> cases vct <;>
    simp [Except.isOk, Except.toBool]

/-- Witness for C8 at a CPU attention tensor (so forward fails) together
with CUDA-contiguous value and gradient tensors. -/
theorem C8_validation_layer_witness :
    ((natten1dav_forward tCpu tValue 1).isOk = true ↔
      (tCpu.is_cuda = true ∧ tCpu.is_contiguous = true ∧
       tValue.is_cuda = true ∧ tValue.is_contiguous = true)) ∧
    ((natten1dav_backward tGrad tCpu tValue 1).isOk = true ↔
      (tGrad.is_cuda = true ∧ tGrad.is_contiguous = true ∧
       tCpu.is_cuda = true ∧ tCpu.is_contiguous = true ∧
       tValue.is_cuda = true ∧ tValue.is_contiguous = true)) :=
  C8_validation_layer tCpu tValue tGrad 1

/-- Claim C9: on validated inputs, the precision dispatch of both wrappers
is decided solely by the scalar type of `value`: the fp16 kernel is called iff
`value` is `Half`, whatever the scalar types of `attn` and `d_out`. -/
theorem C9_dispatch_on_value_dtype (attn value d_out : ATTensor)
    (dilation : Int)
    (h1 : attn.is_cuda = true) (h2 : attn.is_contiguous = true)
    (h3 : value.is_cuda = true) (h4 : value.is_contiguous = true)
    (h5 : d_out.is_cuda = true) (h6 : d_out.is_contiguous = true) :
    (natten1dav_forward attn value dilation
        = Except.ok (FwdCall.cuda_forward_fp16 attn value dilation)
      ↔ value.scalar_type = ScalarType.Half) ∧
    (natten1dav_forward attn value dilation
        = Except.ok (FwdCall.cuda_forward attn value dilation)
      ↔ value.scalar_type ≠ ScalarType.Half) ∧
    (natten1dav_backward d_out attn value dilation
        = Except.ok (BwdCall.cuda_backward_fp16 d_out attn value dilation)
      ↔ value.scalar_type = ScalarType.Half) ∧
    (natten1dav_backward d_out attn value dilation
        = Except.ok (BwdCall.cuda_backward d_out attn value dilation)
      ↔ value.scalar_type ≠ ScalarType.Half) := by
  rw [natten1dav_forward_cases, natten1dav_backward_cases]
  rw [h1, h2, h3, h4, h5, h6]
  cases hst : value.scalar_type <;> simp [hst]

/-- Witness for C9: `attn` float, `value` half, `d_out` double, all CUDA
and contiguous. -/
theorem C9_dispatch_on_value_dtype_witness :
    (tAttn.is_cuda = true ∧ tAttn.is_contiguous = true ∧
     tValue.is_cuda = true ∧ tValue.is_contiguous = true ∧
     tGrad.is_cuda = true ∧ tGrad.is_contiguous = true) ∧
    ((natten1dav_forward tAttn tValue 2
        = Except.ok (FwdCall.cuda_forward_fp16 tAttn tValue 2)
      ↔ tValue.scalar_type = ScalarType.Half) ∧
     (natten1dav_forward tAttn tValue 2
        = Except.ok (FwdCall.cuda_forward tAttn tValue 2)
      ↔ tValue.scalar_type ≠ ScalarType.Half) ∧
     (natten1dav_backward tGrad tAttn tValue 2
        = Except.ok (BwdCall.cuda_backward_fp16 tGrad tAttn tValue 2)
      ↔ tValue.scalar_type = ScalarType.Half) ∧
     (natten1dav_backward tGrad tAttn tValue 2
        = Except.ok (BwdCall.cuda_backward tGrad tAttn tValue 2)
      ↔ tValue.scalar_type ≠ ScalarType.Half)) :=
  ⟨by decide,
   C9_dispatch_on_value_dtype tAttn tValue tGrad 2 rfl rfl rfl rfl rfl rfl⟩

/-- Claim C10: the wrappers validate neither the dilation argument nor any
tensor shape: every CUDA-contiguous input combination, with any integer
dilation (zero and negative included) and arbitrary, even mutually
mismatched, sizes, is handed to the CUDA kernel unchanged with no
wrapper-level error. -/
theorem C10_no_shape_dilation_validation (attn value d_out : ATTensor)
    (dilation : Int)
    (h1 : attn.is_cuda = true) (h2 : attn.is_contiguous = true)
    (h3 : value.is_cuda = true) (h4 : value.is_contiguous = true)
    (h5 : d_out.is_cuda = true) (h6 : d_out.is_contiguous = true) :
    (natten1dav_forward attn value dilation).map FwdCall.args
      = Except.ok (attn, value, dilation) ∧
    (natten1dav_backward d_out attn value dilation).map BwdCall.args
      = Except.ok (d_out, attn, value, dilation) := by
  rw [natten1dav_forward_cases, natten1dav_backward_cases]
  rw [h1, h2, h3, h4, h5, h6]
  cases hst : value.scalar_type <;>
    simp [hst, FwdCall.args, BwdCall.args, Except.map]

/-- Witness for C10 at a negative dilation `-3` and mutually mismatched
tensor sizes. -/
theorem C10_no_shape_dilation_validation_witness :
    (tAttn.is_cuda = true ∧ tAttn.is_contiguous = true ∧
     tValue.is_cuda = true ∧ tValue.is_contiguous = true ∧
     tGrad.is_cuda = true ∧ tGrad.is_contiguous = true) ∧
    ((natten1dav_forward tAttn tValue (-3)).map FwdCall.args
        = Except.ok (tAttn, tValue, (-3 : Int)) ∧
     (natten1dav_backward tGrad tAttn tValue (-3)).map BwdCall.args
        = Except.ok (tGrad, tAttn, tValue, (-3 : Int))) :=
  ⟨by decide,
   C10_no_shape_dilation_validation tAttn tValue tGrad (-3)
     rfl rfl rfl rfl rfl rfl⟩

/-- Witness for C4 at `l=2, L=5, K=3, δ=1, k=0` (an interior position). -/
theorem C4_window_validity_witness :
    (0 < 1 ∧ 2 < 5 ∧ 3 ≤ (5 - 2 % 1 + 1 - 1) / 1 ∧ 0 < 3) ∧
    ((indexer 2 5 3 1).Nodup ∧
      neighbor 2 5 3 1 0 < 5 ∧
      neighbor 2 5 3 1 0 % 1 = 2 % 1 ∧
      (neighbor 2 5 3 1 0 - 2 % 1) / 1
        = windowStart (2 / 1) ((5 - 2 % 1 + 1 - 1) / 1) 3 + 0 ∧
      (0 < 3 → 3 / 2 ≤ 2 / 1 →
        2 / 1 + (3 + 1) / 2 ≤ (5 - 2 % 1 + 1 - 1) / 1 →
        2 ∈ indexer 2 5 3 1)) :=
  ⟨by decide,
   C4_window_validity 2 5 3 1 0 (by decide) (by decide) (by decide) (by decide)⟩

end Natten
